import Mathlib

/-!
Verification of the gesture-controlled particle choreography application.

Shallow embedding conventions:
* JavaScript numbers are modelled as exact rationals (`ℚ`).
* `Math.hypot` comparisons are translated to comparisons of squared
  distances: for nonnegative reals, `hypot dx dy < c ↔ dx² + dy² < c²`
  and `hypot a > 1.5 * hypot b ↔ a² > 1.5² * b²`, so the squared form is
  an exact translation of the source's decision procedure.
* Transcendental library calls (`Math.sin`, `Math.cos`, `Math.sqrt`,
  `Math.pow (·, 0.4)`) are passed in as an explicit `MathFns` record of
  rational-valued functions, keeping every definition executable.
* `Math.random()` is modelled as reading successive values from an
  explicit stream `ℕ → ℚ` with a cursor (`RState`).
-/

namespace GestureTree

/-- 3D vector, mirroring `THREE.Vector3` as used by the source. -/
structure Vec3 where
  x : ℚ
  y : ℚ
  z : ℚ
  deriving DecidableEq

/-- `THREE.Vector3.multiplyScalar`: componentwise scaling. -/
def Vec3.scale (k : ℚ) (v : Vec3) : Vec3 :=
  ⟨v.x * k, v.y * k, v.z * k⟩

/-- `THREE.Vector3.lerp(target, alpha)`: `v + (target - v) * alpha`
componentwise. -/
def Vec3.lerp (v target : Vec3) (alpha : ℚ) : Vec3 :=
  ⟨v.x + (target.x - v.x) * alpha,
   v.y + (target.y - v.y) * alpha,
   v.z + (target.z - v.z) * alpha⟩

/-- Squared euclidean distance between two `Vec3`s. -/
def distSq (a b : Vec3) : ℚ :=
  (a.x - b.x) ^ 2 + (a.y - b.y) ^ 2 + (a.z - b.z) ^ 2

/-- A 2D hand landmark in normalized coordinates. -/
structure Point where
  x : ℚ
  y : ℚ
  deriving DecidableEq

/-- Squared 2D distance; `Math.hypot (a.x-b.x) (a.y-b.y) ^ 2`. -/
def dist2 (a b : Point) : ℚ :=
  (a.x - b.x) ^ 2 + (a.y - b.y) ^ 2

/-- The `AppMode` enum of the source. -/
inductive AppMode where
  | TREE
  | SCATTER
  | INSPECT
  deriving DecidableEq

/-- The gesture symbols produced by `detectGesture`. -/
inductive Gesture where
  | FIST
  | OPEN
  | PINCH
  | NONE
  deriving DecidableEq

/-- Record of rational-valued models of the transcendental `Math`
functions used by the source (`sin`, `cos`, `sqrt`, `pow(·, 0.4)`). -/
structure MathFns where
  sin : ℚ → ℚ
  cos : ℚ → ℚ
  sqrt : ℚ → ℚ
  pow04 : ℚ → ℚ

/-- A degenerate `MathFns` instance (all functions constantly `0`),
used to evaluate definitions at concrete inputs where the
transcendental parts are irrelevant. -/
def mathZero : MathFns :=
  ⟨fun _ => 0, fun _ => 0, fun _ => 0, fun _ => 0⟩

-- ==========================================
-- ModeController (`App.handleGestureUpdate`, part_000 lines 709-720)
-- ==========================================

/-- The mode-transition logic of `handleGestureUpdate`: `FIST → TREE`,
`OPEN → SCATTER`, `PINCH → INSPECT` guarded by `prev ≠ INSPECT` and
`photos.length > 0`, `NONE` leaves the mode unchanged. -/
def handleGestureUpdate (photoCount : ℕ) (g : Gesture) (prev : AppMode) : AppMode :=
  match g with
  | Gesture.FIST => AppMode.TREE
  | Gesture.OPEN => AppMode.SCATTER
  | Gesture.PINCH =>
      if prev ≠ AppMode.INSPECT ∧ 0 < photoCount then AppMode.INSPECT else prev
  | Gesture.NONE => prev

/-- The initial mode: `useState<AppMode>(AppMode.TREE)`. -/
def initialMode : AppMode := AppMode.TREE

-- ==========================================
-- GestureClassifier (`detectGesture`, part_000 lines 409-431)
-- ==========================================

/-- `isFingerExtended`: the source compares `distTip > distMcp * 1.5`
where both distances are `Math.hypot` values from the wrist (landmark
0); here translated exactly to squared form. -/
def isFingerExtended (lm : ℕ → Point) (tipIdx mcpIdx : ℕ) : Bool :=
  decide (dist2 (lm mcpIdx) (lm 0) * (1.5 : ℚ) ^ 2 < dist2 (lm tipIdx) (lm 0))

/-- `detectGesture`: pinch check first (thumb tip 4 vs index tip 8,
threshold 0.05), then all-five-extended → OPEN, zero-extended → FIST,
otherwise NONE. -/
def detectGesture (lm : ℕ → Point) : Gesture :=
  let thumbExtended := isFingerExtended lm 4 2
  let indexExtended := isFingerExtended lm 8 5
  let middleExtended := isFingerExtended lm 12 9
  let ringExtended := isFingerExtended lm 16 13
  let pinkyExtended := isFingerExtended lm 20 17
  let extendedCount :=
    ([thumbExtended, indexExtended, middleExtended, ringExtended,
      pinkyExtended].filter id).length
  if dist2 (lm 8) (lm 4) < (0.05 : ℚ) ^ 2 then Gesture.PINCH
  else if extendedCount = 5 then Gesture.OPEN
  else if extendedCount = 0 then Gesture.FIST
  else Gesture.NONE

/-- The negation of `isFingerExtended` for one digit: tip distance at
most 1.5× the base-joint distance (in squared form). -/
def digitRetracted (lm : ℕ → Point) (tipIdx mcpIdx : ℕ) : Prop :=
  dist2 (lm tipIdx) (lm 0) ≤ dist2 (lm mcpIdx) (lm 0) * (1.5 : ℚ) ^ 2

/-- All five digits retracted (tip within 1.5× of base distance). -/
def allRetracted (lm : ℕ → Point) : Prop :=
  digitRetracted lm 4 2 ∧ digitRetracted lm 8 5 ∧ digitRetracted lm 12 9 ∧
    digitRetracted lm 16 13 ∧ digitRetracted lm 20 17

instance (lm : ℕ → Point) (t m : ℕ) : Decidable (digitRetracted lm t m) := by
  unfold digitRetracted; infer_instance

instance (lm : ℕ → Point) : Decidable (allRetracted lm) := by
  unfold allRetracted; infer_instance

/-- Constant landmark set: every landmark at the same point. -/
def lmConst : ℕ → Point := fun _ => ⟨1/2, 1/2⟩

/-- A physically plausible fist: wrist at the origin, the five base
joints at `(1,0)`, thumb tip back at the wrist, index tip at its base
joint, remaining tips at the wrist.  All digits are retracted and the
thumb/index tips are far apart (distance 1 ≥ 0.05). -/
def lmFist : ℕ → Point := fun i =>
  if i = 2 ∨ i = 5 ∨ i = 8 ∨ i = 9 ∨ i = 13 ∨ i = 17 then ⟨1, 0⟩ else ⟨0, 0⟩

-- ==========================================
-- LayoutGenerator (`getTreeData` / `getScatterPos`, part_000 lines 33-53)
-- ==========================================

def TREE_HEIGHT : ℚ := 18

def TREE_RADIUS : ℚ := 7.5

/-- Return record of `getTreeData`. -/
structure TreeData where
  pos : Vec3
  angle : ℚ
  r : ℚ
  radiusAtHeight : ℚ
  yPercent : ℚ
  deriving DecidableEq

/-- `getTreeData(index, total)`: the random in-disk draw
`Math.random()` is passed in as `u`, `Math.pow (·, 0.4)` and the trig
functions through `m`. -/
def getTreeData (m : MathFns) (u : ℚ) (index total : ℕ) : TreeData :=
  let y : ℚ := ((index : ℚ) / (total : ℚ)) * TREE_HEIGHT - TREE_HEIGHT / 2
  let yPercent := (y + TREE_HEIGHT / 2) / TREE_HEIGHT
  let radiusAtHeight := (TREE_HEIGHT / 2 - y) * (TREE_RADIUS / TREE_HEIGHT)
  let r := radiusAtHeight * m.pow04 u
  let angle := (index : ℚ) * 2.39996
  let x := m.cos angle * r
  let z := m.sin angle * r
  ⟨⟨x, y, z⟩, angle, r, radiusAtHeight, yPercent⟩

/-- `Math.random()` modelled as a stream of rationals with a cursor. -/
structure RState where
  stream : ℕ → ℚ
  cursor : ℕ

/-- One `Math.random()` call: read the stream at the cursor, advance. -/
def randDraw (s : RState) : ℚ × RState :=
  (s.stream s.cursor, ⟨s.stream, s.cursor + 1⟩)

/-- `getScatterPos()`: three `Math.random()` draws scaled into the
fixed bounding box `(±25, ±20, ±15)`. -/
def getScatterPosR (s : RState) : Vec3 × RState :=
  let (u1, s1) := randDraw s
  let (u2, s2) := randDraw s1
  let (u3, s3) := randDraw s2
  (⟨(u1 - 0.5) * 50, (u2 - 0.5) * 40, (u3 - 0.5) * 30⟩, s3)

/-- One photo's layout data as (re)computed by a `PhotoCollection`
render (part_000 lines 315-325): `getTreeData(i * 10, 1000 + photos.length)`
(one random draw for the in-disk radius), the result scaled by 1.3,
then `getScatterPos()` (three more random draws) for the `initialPos`
prop.  Returns `((treePos, initialPos), nextRandomState)`. -/
def renderPhoto (m : MathFns) (photoCount i : ℕ) (s : RState) :
    (Vec3 × Vec3) × RState :=
  let totalCount := 1000 + photoCount
  let (u, s1) := randDraw s
  let td := getTreeData m u (i * 10) totalCount
  let treePos := Vec3.scale 1.3 td.pos
  let (ip, s2) := getScatterPosR s1
  ((treePos, ip), s2)

/-- A concrete random stream used to evaluate the render model. -/
def demoRng : ℕ → ℚ := fun k => 1 / ((k : ℚ) + 2)

-- ==========================================
-- ParticleField target functions (part_000 lines 95-118, 185-226, 250-282)
-- ==========================================

/-- A foliage particle record (`TreeFoliage` `useMemo`, lines 71-91). -/
structure FoliageParticle where
  initialPos : Vec3
  treePos : Vec3
  scale : ℚ
  phase : ℚ
  deriving DecidableEq

/-- A ribbon particle record (`TreeRibbons` `useMemo`, lines 144-181). -/
structure RibbonParticle where
  initialPos : Vec3
  treePos : Vec3
  phase : ℚ
  angle : ℚ
  radius : ℚ
  height : ℚ
  trailLength : ℚ
  deriving DecidableEq

/-- The per-frame target position of a foliage particle
(`TreeFoliage` `useFrame`, lines 99-109). -/
def foliageTarget (m : MathFns) (mode : AppMode) (time : ℚ)
    (p : FoliageParticle) : Vec3 :=
  match mode with
  | AppMode.TREE =>
      { p.treePos with
        x := p.treePos.x + m.sin (time * 0.5 + p.treePos.y) * 0.05 }
  | AppMode.SCATTER =>
      { p.initialPos with
        y := p.initialPos.y + m.sin (time * 0.5 + p.phase) * 0.5 }
  | AppMode.INSPECT => Vec3.scale 2 p.initialPos

/-- The per-frame target position of a ribbon particle
(`TreeRibbons` `useFrame`, lines 189-221): the non-TREE branch is a
single `else` and so covers both SCATTER and INSPECT. -/
def ribbonTarget (m : MathFns) (mode : AppMode) (time : ℚ)
    (p : RibbonParticle) : Vec3 :=
  match mode with
  | AppMode.TREE =>
      let flowSpeed : ℚ := 1
      let activeAngle := p.angle - time * flowSpeed
      ⟨m.cos activeAngle * p.radius, p.height, m.sin activeAngle * p.radius⟩
  | _ =>
      { p.initialPos with y := p.initialPos.y + m.sin (time + p.phase) }

/-- The per-frame target position of a photo (`SinglePhoto` `useFrame`,
lines 254-270), with `isActive` the focused flag. -/
def photoTarget (m : MathFns) (mode : AppMode) (time : ℚ) (id : ℚ)
    (treePos initialPos : Vec3) (isActive : Bool) : Vec3 :=
  match mode with
  | AppMode.TREE =>
      let angle := time * 0.2 + id
      let r := m.sqrt (treePos.x ^ 2 + treePos.z ^ 2)
      ⟨m.cos angle * r, treePos.y, m.sin angle * r⟩
  | AppMode.SCATTER =>
      ⟨initialPos.x + m.sin (time * 0.5 + id) * 0.5,
       initialPos.y + m.cos (time * 0.3 + id) * 0.5,
       initialPos.z⟩
  | AppMode.INSPECT =>
      if isActive then ⟨0, 0, 15⟩ else Vec3.scale 2 initialPos

/-- The scale target a photo's scale is lerped toward
(`SinglePhoto` `useFrame`, lines 275-281). -/
def photoScaleTarget (mode : AppMode) (isActive : Bool) : Vec3 :=
  if isActive ∧ mode = AppMode.INSPECT then ⟨6, 6, 1⟩ else ⟨2, 2, 1⟩

/-- A concrete ribbon record used to evaluate the INSPECT target. -/
def ribbonCE : RibbonParticle :=
  ⟨⟨10, 0, 0⟩, ⟨0, 0, 0⟩, 0, 0, 0, 0, 0⟩

/-- Iterated damped interpolation: `n` ticks of
`currentPos ← currentPos.lerp(target, alpha)` with fixed `target` and
fixed `alpha = Δt · rate`. -/
def lerpIter (c target : Vec3) (alpha : ℚ) : ℕ → Vec3
  | 0 => c
  | n + 1 => Vec3.lerp (lerpIter c target alpha n) target alpha

-- ==========================================
-- GestureTracker (`predictWebcam`, part_000 lines 486-519)
-- ==========================================

/-- The `HandGestureState` emitted to `onGestureUpdate`. -/
structure HandGestureState where
  isHandDetected : Bool
  gesture : Gesture
  px : ℚ
  py : ℚ
  deriving DecidableEq

/-- The state emitted when zero hands are detected. -/
def noHandState : HandGestureState :=
  ⟨false, Gesture.NONE, 0.5, 0.5⟩

/-- One processed video frame of `predictWebcam` (a frame whose
timestamp advanced): the detector call either throws
(`Except.error`), returns zero hands (`Except.ok none`), or returns a
landmark set.  The result is the `HandGestureState` passed to
`onGestureUpdate`, or `none` when nothing is emitted; the function is
total, so an exception is never propagated and the loop continues. -/
def processFrame (res : Except Unit (Option (ℕ → Point))) :
    Option HandGestureState :=
  match res with
  | Except.error _ => none
  | Except.ok none => some noHandState
  | Except.ok (some lm) =>
      let x := ((lm 0).x + (lm 9).x) / 2
      let y := ((lm 0).y + (lm 9).y) / 2
      some ⟨true, detectGesture lm, 1 - x, y⟩

-- ==========================================
-- Photo focus selection (`PhotoCollection`, part_000 lines 300-332)
-- ==========================================

/-- The `activeId` state after the `useEffect` runs: a random index
(modelled by `randomIdx`, the value of
`Math.floor(Math.random() * photos.length)`) when entering INSPECT
with photos available, `null` otherwise. -/
def activeIdAfterEffect (mode : AppMode) (photoCount randomIdx : ℕ) :
    Option ℕ :=
  if mode = AppMode.INSPECT ∧ 0 < photoCount then some randomIdx else none

/-- A photo's focused flag: `isActive = (i === activeId)`. -/
def isFocused (activeId : Option ℕ) (i : ℕ) : Bool :=
  activeId = some i

end GestureTree

namespace GestureTree

/-- Claim C1: a PINCH gesture-update transitions the mode to INSPECT
iff the current mode is not INSPECT and the photo count is positive;
otherwise the mode is unchanged.  In particular PINCH from INSPECT
stays at INSPECT, and PINCH with photo count 0 never changes the
mode. -/
theorem c1_pinch_transition (count : ℕ) (prev : AppMode) :
    ((handleGestureUpdate count Gesture.PINCH prev = AppMode.INSPECT ∧
        prev ≠ AppMode.INSPECT) ↔ (prev ≠ AppMode.INSPECT ∧ 0 < count)) ∧
    (¬(prev ≠ AppMode.INSPECT ∧ 0 < count) →
        handleGestureUpdate count Gesture.PINCH prev = prev) ∧
    handleGestureUpdate count Gesture.PINCH AppMode.INSPECT = AppMode.INSPECT ∧
    handleGestureUpdate 0 Gesture.PINCH prev = prev := by
  cases prev <;> rcases count with _ | n <;>
    simp [handleGestureUpdate]

/-- Witness for C1: with photo count 0 from TREE, the guard fails and
a PINCH event leaves the mode unchanged. -/
theorem c1_pinch_transition_witness :
    ¬(AppMode.TREE ≠ AppMode.INSPECT ∧ 0 < 0) ∧
    handleGestureUpdate 0 Gesture.PINCH AppMode.TREE = AppMode.TREE :=
  ⟨by decide, (c1_pinch_transition 0 AppMode.TREE).2.1 (by decide)⟩

/-- Claim C2: the machine starts in TREE; FIST sets TREE
unconditionally, OPEN sets SCATTER unconditionally (from any mode,
including INSPECT), and NONE leaves the mode unchanged. -/
theorem c2_unconditional_transitions :
    initialMode = AppMode.TREE ∧
    ∀ (count : ℕ) (prev : AppMode),
      handleGestureUpdate count Gesture.FIST prev = AppMode.TREE ∧
      handleGestureUpdate count Gesture.OPEN prev = AppMode.SCATTER ∧
      handleGestureUpdate count Gesture.NONE prev = prev :=
  ⟨rfl, fun _ _ => ⟨rfl, rfl, rfl⟩⟩

/-- Claim C3: whenever the (squared) thumb-tip/index-tip distance is
below the pinch threshold `0.05²`, `detectGesture` returns PINCH,
regardless of the extension state of the digits: the pinch check
precedes the extension checks. -/
theorem c3_pinch_precedence (lm : ℕ → Point)
    (h : dist2 (lm 8) (lm 4) < (0.05 : ℚ) ^ 2) :
    detectGesture lm = Gesture.PINCH := by
  simp only [detectGesture]
  rw [if_pos h]

/-- Witness for C3: the constant landmark set has pinch distance 0. -/
theorem c3_pinch_precedence_witness :
    dist2 (lmConst 8) (lmConst 4) < (0.05 : ℚ) ^ 2 ∧
    detectGesture lmConst = Gesture.PINCH :=
  ⟨by norm_num [lmConst, dist2], c3_pinch_precedence lmConst (by norm_num [lmConst, dist2])⟩

/-- Counterexample to C4 as stated: the constant landmark set has all
five digits retracted (every distance is 0), yet `detectGesture`
returns PINCH, not FIST, because the pinch check fires first. -/
theorem c4_all_retracted_counterexample :
    allRetracted lmConst ∧ detectGesture lmConst ≠ Gesture.FIST := by
  constructor
  · norm_num [allRetracted, digitRetracted, dist2, lmConst]
  · have h : detectGesture lmConst = Gesture.PINCH := by
      simp only [detectGesture]
      rw [if_pos (by norm_num [lmConst, dist2])]
    rw [h]
    decide

/-- Claim C4 (amended): if all five digits are retracted (tip distance
at most 1.5× base distance) AND the thumb-tip/index-tip distance is at
least the pinch threshold 0.05, then `detectGesture` returns FIST. -/
theorem c4_fist_classification (lm : ℕ → Point) (hr : allRetracted lm)
    (hp : (0.05 : ℚ) ^ 2 ≤ dist2 (lm 8) (lm 4)) :
    detectGesture lm = Gesture.FIST := by
  obtain ⟨h1, h2, h3, h4, h5⟩ := hr
  have e1 : isFingerExtended lm 4 2 = false := decide_eq_false (not_lt.mpr h1)
  have e2 : isFingerExtended lm 8 5 = false := decide_eq_false (not_lt.mpr h2)
  have e3 : isFingerExtended lm 12 9 = false := decide_eq_false (not_lt.mpr h3)
  have e4 : isFingerExtended lm 16 13 = false := decide_eq_false (not_lt.mpr h4)
  have e5 : isFingerExtended lm 20 17 = false := decide_eq_false (not_lt.mpr h5)
  simp only [detectGesture]
  rw [if_neg (not_lt.mpr hp)]
  simp [e1, e2, e3, e4, e5]

/-- Witness for the amended C4: a plausible fist with separated thumb
and index tips is classified FIST. -/
theorem c4_fist_classification_witness :
    allRetracted lmFist ∧ (0.05 : ℚ) ^ 2 ≤ dist2 (lmFist 8) (lmFist 4) ∧
    detectGesture lmFist = Gesture.FIST :=
  ⟨by norm_num [allRetracted, digitRetracted, dist2, lmFist],
   by norm_num [dist2, lmFist],
   c4_fist_classification lmFist
     (by norm_num [allRetracted, digitRetracted, dist2, lmFist])
     (by norm_num [dist2, lmFist])⟩

/-- Counterexample to C5 as stated: a ribbon particle with scatter
position `(10,0,0)` targets `(10,0,0)` in INSPECT mode (its unscaled
scatter position, the shared SCATTER/INSPECT branch), not the 2×
scaled `(20,0,0)` the claim requires. -/
theorem c5_ribbon_counterexample :
    ribbonTarget mathZero AppMode.INSPECT 0 ribbonCE = ⟨10, 0, 0⟩ ∧
    Vec3.scale 2 ribbonCE.initialPos = ⟨20, 0, 0⟩ ∧
    ribbonTarget mathZero AppMode.INSPECT 0 ribbonCE ≠
      Vec3.scale 2 ribbonCE.initialPos := by
  refine ⟨?_, ?_, ?_⟩ <;>
    norm_num [ribbonTarget, Vec3.scale, ribbonCE, mathZero]

/-- Claim C5 (amended): in INSPECT mode the focused photo targets the
fixed reading position `(0,0,15)` in front of the camera with scale
target `(6,6,1)`; foliage and non-focused photos target their own
scatter position scaled outward by exactly 2×; ribbon records,
however, target their unscaled scatter position with a sinusoidal
y-bob, identical to their SCATTER-mode target. -/
theorem c5_inspect_targets (m : MathFns) (t : ℚ) (fp : FoliageParticle)
    (rp : RibbonParticle) (id : ℚ) (tp ip : Vec3) :
    foliageTarget m AppMode.INSPECT t fp = Vec3.scale 2 fp.initialPos ∧
    photoTarget m AppMode.INSPECT t id tp ip true = ⟨0, 0, 15⟩ ∧
    photoScaleTarget AppMode.INSPECT true = ⟨6, 6, 1⟩ ∧
    photoTarget m AppMode.INSPECT t id tp ip false = Vec3.scale 2 ip ∧
    ribbonTarget m AppMode.INSPECT t rp =
      { rp.initialPos with y := rp.initialPos.y + m.sin (t + rp.phase) } := by
  refine ⟨rfl, by simp [photoTarget], by simp [photoScaleTarget],
    by simp [photoTarget], rfl⟩

/-- Code bug behind C6: re-rendering `PhotoCollection` recomputes
`getScatterPos()` (and the random in-disk radius of `getTreeData`)
inline for the same photo, so two successive renders of photo 0 with
an unchanged photo list disagree on its scatter position. -/
theorem c6_scatter_recomputed_per_render :
    (renderPhoto mathZero 1 0
        (renderPhoto mathZero 1 0 ⟨demoRng, 0⟩).2).1.2 ≠
      (renderPhoto mathZero 1 0 ⟨demoRng, 0⟩).1.2 := by
  norm_num [renderPhoto, getScatterPosR, randDraw, getTreeData, demoRng,
    Vec3.scale, mathZero, TREE_HEIGHT, TREE_RADIUS]

end GestureTree

namespace GestureTree

/-- One lerp tick scales the squared distance to the target by
`(1 - alpha)²`. -/
lemma lerp_distSq (c t : Vec3) (alpha : ℚ) :
    distSq (Vec3.lerp c t alpha) t = (1 - alpha) ^ 2 * distSq c t := by
  simp only [Vec3.lerp, distSq]
  ring

/-- `n` lerp ticks scale the squared distance by `(1 - alpha)^(2n)`. -/
lemma lerpIter_distSq (c t : Vec3) (alpha : ℚ) (n : ℕ) :
    distSq (lerpIter c t alpha n) t = (1 - alpha) ^ (2 * n) * distSq c t := by
  induction n with
  | zero => simp [lerpIter]
  | succ n ih =>
      show distSq (Vec3.lerp (lerpIter c t alpha n) t alpha) t = _
      rw [lerp_distSq, ih]
      ring

lemma distSq_nonneg (a b : Vec3) : 0 ≤ distSq a b := by
  simp only [distSq]
  positivity

lemma distSq_eq_zero_iff (a b : Vec3) : distSq a b = 0 ↔ a = b := by
  constructor
  · intro h
    simp only [distSq] at h
    have hx2 : (a.x - b.x) ^ 2 = 0 :=
      le_antisymm (by nlinarith [sq_nonneg (a.y - b.y), sq_nonneg (a.z - b.z)])
        (sq_nonneg _)
    have hy2 : (a.y - b.y) ^ 2 = 0 :=
      le_antisymm (by nlinarith [sq_nonneg (a.x - b.x), sq_nonneg (a.z - b.z)])
        (sq_nonneg _)
    have hz2 : (a.z - b.z) ^ 2 = 0 :=
      le_antisymm (by nlinarith [sq_nonneg (a.x - b.x), sq_nonneg (a.y - b.y)])
        (sq_nonneg _)
    have hx := sub_eq_zero.mp (pow_eq_zero_iff two_ne_zero |>.mp hx2)
    have hy := sub_eq_zero.mp (pow_eq_zero_iff two_ne_zero |>.mp hy2)
    have hz := sub_eq_zero.mp (pow_eq_zero_iff two_ne_zero |>.mp hz2)
    cases a
    cases b
    simp_all
  · intro h
    subst h
    simp only [distSq]
    ring

lemma distSq_pos_of_ne (a b : Vec3) (h : a ≠ b) : 0 < distSq a b :=
  lt_of_le_of_ne (distSq_nonneg a b)
    (fun h0 => h ((distSq_eq_zero_iff a b).mp h0.symm))

/-- Counterexample to C7 as stated: with unconstrained tick length the
claim fails — one tick of `Δt = 1` at rate 3 (`alpha = 3`) from
`(0,0,0)` toward `(1,0,0)` lands at `(3,0,0)`, overshooting the
target and strictly increasing the distance. -/
theorem c7_overshoot_counterexample :
    Vec3.lerp ⟨0, 0, 0⟩ ⟨1, 0, 0⟩ (1 * 3) = ⟨3, 0, 0⟩ ∧
    distSq (⟨0, 0, 0⟩ : Vec3) ⟨1, 0, 0⟩ <
      distSq (Vec3.lerp ⟨0, 0, 0⟩ ⟨1, 0, 0⟩ (1 * 3)) ⟨1, 0, 0⟩ := by
  constructor <;> norm_num [Vec3.lerp, distSq]

/-- Claim C7 (amended): for `0 < Δt·rate < 1`, each tick multiplies
every coordinate offset from the target by the positive factor
`1 - Δt·rate < 1` (so the position never overshoots the target) and,
when not already at the target, strictly decreases the distance; and
at `Δt = 1/60`, rate 3, after 120 ticks (2 simulated seconds) the
squared distance is below `0.01²` whenever the initial squared
distance is at most 16 (initial distance at most 4 units). -/
theorem c7_damped_interpolation :
    (∀ (c t : Vec3) (alpha : ℚ), 0 < alpha → alpha < 1 →
      ((Vec3.lerp c t alpha).x - t.x = (1 - alpha) * (c.x - t.x) ∧
       (Vec3.lerp c t alpha).y - t.y = (1 - alpha) * (c.y - t.y) ∧
       (Vec3.lerp c t alpha).z - t.z = (1 - alpha) * (c.z - t.z)) ∧
      (c ≠ t → distSq (Vec3.lerp c t alpha) t < distSq c t)) ∧
    (∀ c t : Vec3, distSq c t ≤ 16 →
      distSq (lerpIter c t (1 / 60 * 3) 120) t < (0.01 : ℚ) ^ 2) := by
  constructor
  · intro c t alpha ha ha1
    refine ⟨⟨by simp [Vec3.lerp]; ring, by simp [Vec3.lerp]; ring,
      by simp [Vec3.lerp]; ring⟩, ?_⟩
    intro hne
    have hd : 0 < distSq c t := distSq_pos_of_ne c t hne
    have h2 : 0 < alpha * (2 - alpha) := mul_pos ha (by linarith)
    rw [lerp_distSq]
    nlinarith [mul_pos hd h2]
  · intro c t h
    rw [lerpIter_distSq]
    have he : ((1 : ℚ) - 1 / 60 * 3) ^ (2 * 120) = (19 / 20 : ℚ) ^ 240 := by
      norm_num
    rw [he]
    have hle : (19 / 20 : ℚ) ^ 240 * distSq c t ≤ (19 / 20 : ℚ) ^ 240 * 16 :=
      mul_le_mul_of_nonneg_left h (by positivity)
    have hbound : (19 / 20 : ℚ) ^ 240 * 16 < (0.01 : ℚ) ^ 2 := by norm_num
    linarith

/-- Witness for the amended C7: a concrete tick with `alpha = 1/2`
strictly decreases the distance, and 120 ticks at `alpha = 1/20` from
distance 4 land within 0.01 of the target. -/
theorem c7_damped_interpolation_witness :
    distSq (Vec3.lerp ⟨1, 0, 0⟩ ⟨0, 0, 0⟩ (1 / 2)) ⟨0, 0, 0⟩ <
      distSq (⟨1, 0, 0⟩ : Vec3) ⟨0, 0, 0⟩ ∧
    distSq (lerpIter ⟨4, 0, 0⟩ ⟨0, 0, 0⟩ (1 / 60 * 3) 120) ⟨0, 0, 0⟩ <
      (0.01 : ℚ) ^ 2 :=
  ⟨((c7_damped_interpolation.1 ⟨1, 0, 0⟩ ⟨0, 0, 0⟩ (1 / 2) (by norm_num)
      (by norm_num)).2 (by simp)),
   c7_damped_interpolation.2 ⟨4, 0, 0⟩ ⟨0, 0, 0⟩ (by norm_num [distSq])⟩

/-- Counterexample to C8 as stated: with `total = 100`, the height at
index 0 is strictly below the height at index 99 (index 0 is the
base, not the apex), and the cone radius at index 0 is strictly
greater than at index 99. -/
theorem c8_apex_counterexample :
    (getTreeData mathZero 0 0 100).pos.y <
      (getTreeData mathZero 0 99 100).pos.y ∧
    (getTreeData mathZero 0 99 100).radiusAtHeight <
      (getTreeData mathZero 0 0 100).radiusAtHeight := by
  constructor <;> norm_num [getTreeData, TREE_HEIGHT, TREE_RADIUS]

/-- Claim C8 (amended): for `total = 100`, index 0 is the base: its
height is the minimum over all indices below 100, and its cone radius
is strictly greater than the radius at index 99 (near the apex). -/
theorem c8_tree_extremes (m : MathFns) (u : ℚ) (i : ℕ) (hi : i < 100) :
    (getTreeData m u 0 100).pos.y ≤ (getTreeData m u i 100).pos.y ∧
    (getTreeData m u 99 100).radiusAtHeight <
      (getTreeData m u 0 100).radiusAtHeight := by
  constructor
  · have h0 : (0 : ℚ) ≤ (i : ℚ) / 100 * 18 := by positivity
    simp only [getTreeData, TREE_HEIGHT, TREE_RADIUS]
    push_cast
    linarith
  · norm_num [getTreeData, TREE_HEIGHT, TREE_RADIUS]

/-- Witness for the amended C8 at index 5. -/
theorem c8_tree_extremes_witness :
    (5 : ℕ) < 100 ∧
    ((getTreeData mathZero 0 0 100).pos.y ≤
        (getTreeData mathZero 0 5 100).pos.y ∧
      (getTreeData mathZero 0 99 100).radiusAtHeight <
        (getTreeData mathZero 0 0 100).radiusAtHeight) :=
  ⟨by norm_num, c8_tree_extremes mathZero 0 5 (by norm_num)⟩

/-- Counterexample to C9 as stated: when the detector throws, the
tracker emits nothing at all — in particular it does not emit the
no-hand state the claim requires. -/
theorem c9_error_counterexample :
    processFrame (Except.error ()) ≠ some noHandState := by
  simp [processFrame]

/-- Claim C9 (amended): a processed frame with zero detected hands
emits exactly `{detected: false, gesture: NONE, pointer: (0.5,0.5)}`;
a detector exception is caught and never propagated (`processFrame`
is total) and the loop continues, but nothing is emitted for that
frame. -/
theorem c9_no_hand_and_error_handling :
    processFrame (Except.ok none) = some noHandState ∧
    noHandState = ⟨false, Gesture.NONE, 0.5, 0.5⟩ ∧
    processFrame (Except.error ()) = none :=
  ⟨rfl, rfl, rfl⟩

/-- Claim C10: at most one photo is focused at any time (two focused
indices must coincide), and in TREE or SCATTER mode no photo is
focused at all — leaving INSPECT clears the focus. -/
theorem c10_focus_invariant (mode : AppMode) (count randomIdx i j : ℕ) :
    (isFocused (activeIdAfterEffect mode count randomIdx) i = true →
      isFocused (activeIdAfterEffect mode count randomIdx) j = true →
      i = j) ∧
    isFocused (activeIdAfterEffect AppMode.TREE count randomIdx) i = false ∧
    isFocused (activeIdAfterEffect AppMode.SCATTER count randomIdx) i =
      false := by
  refine ⟨?_, ?_, ?_⟩
  · intro hi hj
    simp only [isFocused, activeIdAfterEffect] at hi hj
    split at hi <;> simp_all
  · simp [isFocused, activeIdAfterEffect]
  · simp [isFocused, activeIdAfterEffect]

/-- Witness for C10: in INSPECT with 3 photos and drawn index 1, photo
1 is focused and any two focused indices agree. -/
theorem c10_focus_invariant_witness :
    isFocused (activeIdAfterEffect AppMode.INSPECT 3 1) 1 = true ∧
    (1 : ℕ) = 1 :=
  ⟨by simp [isFocused, activeIdAfterEffect],
   (c10_focus_invariant AppMode.INSPECT 3 1 1 1).1
     (by simp [isFocused, activeIdAfterEffect])
     (by simp [isFocused, activeIdAfterEffect])⟩

end GestureTree
